import Mathlib

/-!
Verification development for the Edunet_Voice2Text application (`src/app3.py`).

The application is a Streamlit page gluing three pretrained ML pipelines
(speech-to-text, summarization, question generation) to a per-session state
machine.  The ML collaborators and the NLTK sentence tokenizer are external
capabilities; here they are parameters (functions passed to the embedded
operations), while the repository's own logic — Python string manipulation,
the flashcard selection loop, the pipeline guards, reset, and the export
report — is embedded faithfully from the source.

Python string conventions modelled here:
  * `s.split()` (no argument) splits on runs of whitespace and never yields
    empty words (`pySplit`);
  * `s.strip()` removes leading and trailing whitespace (`pyStrip`);
  * truthiness of an optional string (`if transcription:`) is "present and
    non-empty" (`strTruthy`);
  * `x or d` on an optional string / list falls back to the default when the
    value is `None` or empty (`pyOrStr`, `pyOrCards`).
Whitespace is `Char.isWhitespace` (space, tab, CR, LF), which covers every
whitespace character occurring in the repository's data paths.
-/

namespace Voice2Text

/-- One character class test used by Python `str.split()` / `str.strip()`. -/
def isWS (c : Char) : Bool := c.isWhitespace

/-- Accumulator-style worker for Python `s.split()`: walks the character
list, collecting the current word reversed in `acc`; whitespace flushes the
current word (if non-empty). -/
def pySplitAux : List Char → List Char → List (List Char)
  | [], [] => []
  | [], acc => [acc.reverse]
  | c :: cs, acc =>
    if isWS c then
      match acc with
      | [] => pySplitAux cs []
      | _ => acc.reverse :: pySplitAux cs []
    else pySplitAux cs (c :: acc)

/-- Python `s.split()` with no separator: the list of maximal non-whitespace
runs of `s`, as strings. -/
def pySplit (s : String) : List String :=
  (pySplitAux s.data []).map fun cs => ⟨cs⟩

/-- `len(s.split())`, the word count used by the flashcard sentence filter. -/
def wordCount (s : String) : Nat := (pySplit s).length

/-- Python `s.strip()` on a character list: drop leading whitespace, then
drop trailing whitespace (via reverse). -/
def pyTrimChars (cs : List Char) : List Char :=
  ((cs.dropWhile isWS).reverse.dropWhile isWS).reverse

/-- Python `s.strip()`. -/
def pyStrip (s : String) : String := ⟨pyTrimChars s.data⟩

/-- A flashcard as built by `generate_flashcards`: the dict
`{"question": q.strip(), "answer": s.strip()}`. -/
structure Flashcard where
  question : String
  answer : String
deriving DecidableEq, Repr

/-- The sentence filter of `generate_flashcards` (line 217):
`10 < len(s.split()) < 50`. -/
def goodSentence (s : String) : Bool :=
  decide (10 < wordCount s) && decide (wordCount s < 50)

/-- `generate_flashcards` (lines 214–224).  `sent_tokenize` stands for
`nltk.sent_tokenize` and `qg` for the question-generation pipeline call
`qg_pipe(s, ...)[0]['generated_text']`; `qg s = none` models that call
raising an exception for `s`, which the `except: continue` swallows.
The loop body appends one card per successful candidate, mirroring
`flashcards.append({...})`. -/
def generate_flashcards (sent_tokenize : String → List String)
    (qg : String → Option String) (text : String) : List Flashcard :=
  let sentences := sent_tokenize text
  let good_sentences := sentences.filter goodSentence
  (good_sentences.take 10).foldl
    (fun flashcards s =>
      match qg s with
      | some q => flashcards ++ [⟨pyStrip q, pyStrip s⟩]
      | none => flashcards)
    []

/-- The per-session visible state: the five `st.session_state` keys that the
initialization loop (lines 168–169) guarantees are present (possibly `None`,
modelled as `none`).  `audio_data` holds raw audio bytes. -/
structure Session where
  audio_data : Option (List Nat)
  file_name : Option String
  transcription : Option String
  summary : Option String
  flashcards : Option (List Flashcard)
deriving DecidableEq, Repr

/-- A freshly started session: the init loop has set every key to `None`. -/
def Session.fresh : Session := ⟨none, none, none, none, none⟩

/-- Python truthiness of the optional transcript string
(`if transcription:` at line 267): present and non-empty. -/
def strTruthy : Option String → Bool
  | none => false
  | some t => t != ""

/-- The transcription pipeline block (lines 263–271), one script rerun while
audio is present.  `tr` stands for `transcribe_with_whisper` applied to the
session's audio bytes (`none` = transcription failure), `sm` for
`generate_summary` (`none` = summarization failure), `fc` for
`generate_flashcards` on the collaborators fixed by the app.  Runs only when
`st.session_state.transcription is None`; stores the transcript; and only
when the transcript is truthy computes summary and flashcards. -/
def processStep (tr : List Nat → Option String) (sm : String → Option String)
    (fc : String → List Flashcard) (s : Session) : Session :=
  if s.transcription.isNone then
    let t := tr (s.audio_data.getD [])
    let s1 := { s with transcription := t }
    if strTruthy t then
      { s1 with summary := sm (t.getD ""), flashcards := some (fc (t.getD "")) }
    else s1
  else s

/-- The raw `st.session_state` dict restricted to the five app keys: the
outer `Option` is key presence (`none` = key absent from the dict), the
inner value is the stored Python value (`none` = stored `None`). -/
structure RawState where
  audio_data : Option (Option (List Nat))
  file_name : Option (Option String)
  transcription : Option (Option String)
  summary : Option (Option String)
  flashcards : Option (Option (List Flashcard))
deriving DecidableEq, Repr

/-- The session-state initialization loop (lines 168–169): every absent key
is set to `None`; present keys are left untouched. -/
def initKeys (r : RawState) : RawState :=
  { audio_data := some (r.audio_data.getD none)
    file_name := some (r.file_name.getD none)
    transcription := some (r.transcription.getD none)
    summary := some (r.summary.getD none)
    flashcards := some (r.flashcards.getD none) }

/-- `reset_app` (lines 171–176): deletes each of the five keys from the
session-state dict (each is deleted when present; deleting all five leaves
every key absent regardless of the starting state). -/
def reset_app (_ : RawState) : RawState :=
  ⟨none, none, none, none, none⟩

/-- The raw state of a process that has just started: no key present yet. -/
def RawState.started : RawState := ⟨none, none, none, none, none⟩

/-- A user interaction driving one script rerun of the main UI block
(lines 234–320). -/
inductive Event
  | micStop (bytes : List Nat) (name : String)
  | upload (bytes : List Nat) (name : String)
  | refresh
  | clickStartOver
  | clickExport
deriving DecidableEq, Repr

/-- One script rerun of the main UI (lines 234–320) under user event `ev`.
With no audio, only the acquisition widgets can change state (the recorder
fires only with non-empty bytes, line 241; the uploader event carries the
read file bytes, lines 250–252).  With audio but no transcript, the
processing block `processStep` runs unconditionally.  Otherwise the results
view is shown: `Start Over` runs `reset_app` followed by the init loop on
the rerun, and every other interaction (including `Export All`, which only
builds a report string) leaves the session unchanged. -/
def rerun (tr : List Nat → Option String) (sm : String → Option String)
    (fc : String → List Flashcard) (ev : Event) (s : Session) : Session :=
  if s.audio_data.isNone then
    match ev with
    | .micStop b n => if b ≠ [] then { s with file_name := some n, audio_data := some b } else s
    | .upload b n => { s with file_name := some n, audio_data := some b }
    | _ => s
  else if s.transcription.isNone then
    processStep tr sm fc s
  else
    match ev with
    | .clickStartOver => Session.fresh
    | _ => s

/-- Python `x or d` on an optional string (`st.session_state.summary or
'No summary'`, line 314): falls back to `d` when `x` is `None` or empty. -/
def pyOrStr (o : Option String) (d : String) : String :=
  match o with
  | none => d
  | some s => if s = "" then d else s

/-- f-string interpolation of a possibly-`None` string value
(`{st.session_state.file_name}` etc. in the report template). -/
def pyShowOpt : Option String → String
  | none => "None"
  | some s => s

/-- Python `st.session_state.flashcards or []` (line 318): `None` and the
empty list both yield `[]`. -/
def pyOrCards : Option (List Flashcard) → List Flashcard
  | none => []
  | some l => l

/-- The fixed part of the `Export All` report (lines 306–317): header with
file name and generation timestamp, transcription, summary (or the
placeholder literal), and the flashcards section banner.  `genTime` is the
injected `datetime.now().strftime('%Y-%m-%d %H:%M:%S')` value. -/
def reportHeader (s : Session) (genTime : String) : String :=
  "LECTURE ANALYSIS REPORT\nFile: " ++ pyShowOpt s.file_name ++
  "\nGenerated: " ++ genTime ++
  "\n\n=== TRANSCRIPTION ===\n" ++ pyShowOpt s.transcription ++
  "\n\n=== SUMMARY ===\n" ++ pyOrStr s.summary "No summary" ++
  "\n\n=== FLASHCARDS ===\n"

/-- One flashcard block of the report (line 319), numbered `i+1` for the
`enumerate` index `i`. -/
def cardBlock (i : Nat) (c : Flashcard) : String :=
  "\nCard " ++ toString (i + 1) ++ "\nQ: " ++ c.question ++ "\nA: " ++ c.answer ++ "\n"

/-- The `Export All` combined report (lines 304–320): the accumulation loop
`for i, card in enumerate(flashcards or []): full_report += ...` applied to
the header. -/
def full_report (s : Session) (genTime : String) : String :=
  (pyOrCards s.flashcards).enum.foldl
    (fun acc ic => acc ++ cardBlock ic.1 ic.2) (reportHeader s genTime)

/-- Modelled from the spec: the flashcards section as the spec describes it —
"all flashcards numbered starting at 1", i.e. the concatenation of the card
blocks with numbers `k+1, k+2, ...` (the report uses `k = 0`). -/
def spec_cardsSection : Nat → List Flashcard → String
  | _, [] => ""
  | k, c :: cs => cardBlock k c ++ spec_cardsSection (k + 1) cs

/-- A file system visible to `transcribe_with_whisper`: the set of paths
present on disk, as a list. -/
structure World where
  files : List String
deriving DecidableEq, Repr

/-- `os.remove(path)` (line 203): deletes the path, raising an error when
the path is absent; `faulty` injects an independent removal failure (e.g. a
permission error), modelling "a failure of the removal itself". -/
def osRemove (faulty : Bool) (w : World) (p : String) : Except String World :=
  if faulty then .error "OSError"
  else if p ∈ w.files then .ok ⟨w.files.erase p⟩
  else .error "FileNotFoundError"

/-- `transcribe_with_whisper` (lines 191–204), with exceptions made
explicit: the result is `.error e` exactly when an exception would propagate
to the caller.  `tempName` is the fresh path chosen by
`tempfile.NamedTemporaryFile`; `model_tr` is `model.transcribe` reading the
temp path in the current world (`.error` = the try-body raising); the
`except` branch returns `None` after showing an error; the `finally` branch
attempts `os.remove(temp_path)` and swallows any failure with
`except: pass`.  Returns the Python return value paired with the final
world. -/
def transcribe_with_whisper (tempName : World → String)
    (model_tr : String → World → Except String String)
    (removeFaulty : Bool) (w : World) : Except String (Option String × World) :=
  let temp_path := tempName w
  let w1 : World := ⟨temp_path :: w.files⟩
  let body : Except String (Option String) :=
    match model_tr temp_path w1 with
    | .ok t => .ok (some t)
    | .error _ => .ok none
  let w2 : World :=
    match osRemove removeFaulty w1 temp_path with
    | .ok w' => w'
    | .error _ => w1
  match body with
  | .ok r => .ok (r, w2)
  | .error e => .error e

/-- The optional card built from sentence `s` in one loop iteration of
`generate_flashcards`: `none` when the question-generation call fails. -/
def mkCard (qg : String → Option String) (s : String) : Option Flashcard :=
  (qg s).map fun q => ⟨pyStrip q, pyStrip s⟩

/-- A twelve-word sentence (tag plus eleven fixed words), used as a
qualifying sentence in concrete scenarios. -/
def scSentence (tag : String) : String :=
  tag ++ " alpha beta gamma delta epsilon zeta eta theta iota kappa lambda."

/-- A sentence tokenizer producing five qualifying sentences, standing for
`nltk.sent_tokenize` on a transcript made of those five sentences. -/
def scTokFive : String → List String := fun _ =>
  [scSentence "one", scSentence "two", scSentence "three",
   scSentence "four", scSentence "five"]

/-- A question-generation collaborator that fails (raises) exactly on the
third scenario sentence. -/
def scQgFailThird : String → Option String := fun s =>
  if s = scSentence "three" then none else some ("What does " ++ s ++ " say?")

/-- A tokenizer for one-sentence transcripts, standing for
`nltk.sent_tokenize` on a single-sentence input. -/
def scTokSingle : String → List String := fun t => [t]

/-- A question-generation collaborator that always succeeds. -/
def scQgAlways : String → Option String := fun s => some ("Q: " ++ s)

/-- The flashcard built for the scenario sentence tagged "zero". -/
def scCardZero : Flashcard :=
  ⟨pyStrip ("Q: " ++ scSentence "zero"), pyStrip (scSentence "zero")⟩

/-- A session that has just acquired audio: bytes and name set, nothing
derived yet. -/
def scAcquired : Session :=
  ⟨some [1, 2, 3], some "lecture.webm", none, none, none⟩

/-- A session in the results view, transcript already present. -/
def scReady : Session :=
  ⟨some [1, 2, 3], some "lecture.webm", some "hello world", some "a summary", some []⟩

/-- A ready session whose summarization failed: summary unset. -/
def scNoSummary : Session :=
  ⟨some [1, 2, 3], some "lecture.webm", some "hello world", none,
   some [⟨"Q1?", "A1"⟩, ⟨"Q2?", "A2"⟩]⟩

/-- A transcription collaborator that succeeds with the empty transcript. -/
def scTrEmpty : List Nat → Option String := fun _ => some ""

/-- A transcription collaborator that succeeds with a non-empty transcript. -/
def scTrHello : List Nat → Option String := fun _ => some "hello world"

/-- A transcription collaborator that fails. -/
def scTrFail : List Nat → Option String := fun _ => none

/-- A summarization collaborator that always succeeds. -/
def scSm : String → Option String := fun _ => some "A summary."

/-- A flashcard generator stand-in returning no cards. -/
def scFc : String → List Flashcard := fun _ => []

/-- A temp-path chooser standing for `tempfile.NamedTemporaryFile`. -/
def scTempName : World → String := fun _ => "tmp_audio.webm"

/-- A speech-to-text collaborator that always succeeds. -/
def scModelTr : String → World → Except String String := fun _ _ => .ok "hi"

/-! ## Helper lemmas -/

/-- Leading whitespace does not change the outcome of `pySplitAux` started
with an empty accumulator. -/
theorem pySplitAux_dropWhile : ∀ cs : List Char,
    pySplitAux (cs.dropWhile isWS) [] = pySplitAux cs []
  | [] => rfl
  | c :: cs => by
    by_cases h : isWS c
    · simpa [List.dropWhile, h, pySplitAux] using pySplitAux_dropWhile cs
    · simp [List.dropWhile, h]

/-- On an all-whitespace input, `pySplitAux` behaves as on the empty input:
it only flushes the pending accumulator. -/
theorem pySplitAux_ws_left : ∀ t : List Char, (∀ c ∈ t, isWS c) →
    ∀ acc, pySplitAux t acc = pySplitAux [] acc
  | [], _, _ => rfl
  | c :: t, hw, acc => by
    have hc : isWS c = true := hw c (List.mem_cons_self c t)
    have hw' : ∀ x ∈ t, isWS x := fun x hx => hw x (List.mem_cons_of_mem c hx)
    cases acc with
    | nil => simpa [pySplitAux, hc] using pySplitAux_ws_left t hw' []
    | cons a as => simp [pySplitAux, hc, pySplitAux_ws_left t hw' []]

/-- An all-whitespace suffix does not change the outcome of `pySplitAux`. -/
theorem pySplitAux_append_ws : ∀ (cs t : List Char), (∀ c ∈ t, isWS c) →
    ∀ acc, pySplitAux (cs ++ t) acc = pySplitAux cs acc
  | [], t, hw, acc => by simpa using pySplitAux_ws_left t hw acc
  | c :: cs, t, hw, acc => by
    by_cases hc : isWS c
    · cases acc with
      | nil => simp [pySplitAux, hc, pySplitAux_append_ws cs t hw]
      | cons a as => simp [pySplitAux, hc, pySplitAux_append_ws cs t hw]
    · simp [pySplitAux, hc, pySplitAux_append_ws cs t hw]

/-- Python `s.strip()` does not change the outcome of `s.split()`:
stripping only removes leading and trailing whitespace, which the
whitespace-run splitter ignores anyway. -/
theorem pySplit_strip (s : String) : pySplit (pyStrip s) = pySplit s := by
  suffices h : ∀ cs : List Char, pySplitAux (pyTrimChars cs) [] = pySplitAux cs [] by
    simp [pySplit, pyStrip, h]
  intro cs
  have hsplit : cs.dropWhile isWS =
      ((cs.dropWhile isWS).reverse.dropWhile isWS).reverse ++
        ((cs.dropWhile isWS).reverse.takeWhile isWS).reverse :=
    calc cs.dropWhile isWS = (cs.dropWhile isWS).reverse.reverse :=
          (List.reverse_reverse _).symm
    _ = ((cs.dropWhile isWS).reverse.takeWhile isWS ++
          (cs.dropWhile isWS).reverse.dropWhile isWS).reverse := by
          rw [List.takeWhile_append_dropWhile]
    _ = ((cs.dropWhile isWS).reverse.dropWhile isWS).reverse ++
          ((cs.dropWhile isWS).reverse.takeWhile isWS).reverse :=
          List.reverse_append _ _
  have hws : ∀ c ∈ ((cs.dropWhile isWS).reverse.takeWhile isWS).reverse, isWS c :=
    fun c hcm => List.mem_takeWhile_imp (List.mem_reverse.mp hcm)
  calc pySplitAux (pyTrimChars cs) []
      = pySplitAux (((cs.dropWhile isWS).reverse.dropWhile isWS).reverse ++
          ((cs.dropWhile isWS).reverse.takeWhile isWS).reverse) [] :=
        (pySplitAux_append_ws _ _ hws []).symm
    _ = pySplitAux (cs.dropWhile isWS) [] := by rw [← hsplit]
    _ = pySplitAux cs [] := pySplitAux_dropWhile cs

/-- Word count is invariant under Python `strip`. -/
theorem wordCount_strip (s : String) : wordCount (pyStrip s) = wordCount s := by
  simp [wordCount, pySplit_strip]

/-- The flashcard accumulation loop is the `filterMap` of `mkCard` appended
to the starting accumulator. -/
theorem gf_loop_eq (qg : String → Option String) : ∀ (l : List String)
    (acc : List Flashcard),
    l.foldl (fun flashcards s =>
      match qg s with
      | some q => flashcards ++ [⟨pyStrip q, pyStrip s⟩]
      | none => flashcards) acc = acc ++ l.filterMap (mkCard qg)
  | [], acc => by simp
  | s :: l, acc => by
    cases hq : qg s with
    | none => simp [hq, gf_loop_eq qg l acc, mkCard]
    | some q => simp [hq, gf_loop_eq qg l, mkCard]

/-- Characterization of `generate_flashcards`: the cards are exactly
`mkCard` applied, in document order, to the first at-most-10 qualifying
sentences, with failed sentences dropped. -/
theorem generate_flashcards_eq (st : String → List String)
    (qg : String → Option String) (text : String) :
    generate_flashcards st qg text
      = (((st text).filter goodSentence).take 10).filterMap (mkCard qg) := by
  simpa [generate_flashcards] using
    gf_loop_eq qg (((st text).filter goodSentence).take 10) []

/-- The answers of the generated cards form a sublist of the stripped
candidate sentences (order preserved, failures dropped). -/
theorem answers_sublist (qg : String → Option String) : ∀ l : List String,
    ((l.filterMap (mkCard qg)).map Flashcard.answer).Sublist (l.map pyStrip)
  | [] => List.Sublist.refl _
  | s :: l => by
    cases hq : qg s with
    | none =>
      simpa [mkCard, hq] using List.Sublist.cons (pyStrip s) (answers_sublist qg l)
    | some q =>
      simpa [mkCard, hq] using List.Sublist.cons₂ (pyStrip s) (answers_sublist qg l)

/-- The report accumulation loop over `enumFrom k` appends the closed-form
cards section with numbers starting at `k + 1`. -/
theorem report_foldl : ∀ (l : List Flashcard) (k : Nat) (init : String),
    (l.enumFrom k).foldl (fun acc ic => acc ++ cardBlock ic.1 ic.2) init
      = init ++ spec_cardsSection k l
  | [], _, init => by simp [spec_cardsSection]
  | c :: l, k, init => by
    show ((k, c) :: l.enumFrom (k + 1)).foldl
        (fun acc ic => acc ++ cardBlock ic.1 ic.2) init
      = init ++ spec_cardsSection k (c :: l)
    rw [List.foldl_cons, report_foldl l (k + 1) (init ++ cardBlock k c),
      spec_cardsSection, String.append_assoc]

/-! ## Claim theorems -/

/-- C1: for every transcript (and tokenizer/question-generation behaviour),
`generate_flashcards` returns at most 10 flashcards, and the answers come
from the first at-most-10 qualifying sentences in document order. -/
theorem flashcards_at_most_ten (st : String → List String)
    (qg : String → Option String) (text : String) :
    (generate_flashcards st qg text).length ≤ 10 ∧
    ((generate_flashcards st qg text).map Flashcard.answer).Sublist
      ((((st text).filter goodSentence).take 10).map pyStrip) := by
  rw [generate_flashcards_eq]
  exact ⟨le_trans (List.length_filterMap_le _ _) (List.length_take_le _ _),
    answers_sublist qg _⟩

/-- C2: every returned flashcard has an answer whose word count is strictly
between 10 and 50; in particular a tokenizer that reports the five-word
transcript "This is a short test." as its single sentence yields an empty
flashcard list. -/
theorem flashcard_answer_wordCount_bounds :
    (∀ (st : String → List String) (qg : String → Option String)
        (text : String) (c : Flashcard), c ∈ generate_flashcards st qg text →
        10 < wordCount c.answer ∧ wordCount c.answer < 50) ∧
    (∀ (st : String → List String) (qg : String → Option String),
        st "This is a short test." = ["This is a short test."] →
        generate_flashcards st qg "This is a short test." = []) := by
  constructor
  · intro st qg text c hc
    rw [generate_flashcards_eq] at hc
    obtain ⟨s, hs, hcs⟩ := List.mem_filterMap.mp hc
    have hgood : goodSentence s = true :=
      (List.mem_filter.mp (List.take_subset _ _ hs)).2
    have hb : 10 < wordCount s ∧ wordCount s < 50 := by
      simpa [goodSentence] using hgood
    cases hq : qg s with
    | none => simp [mkCard, hq] at hcs
    | some q =>
      have hc' : (⟨pyStrip q, pyStrip s⟩ : Flashcard) = c := by
        simpa [mkCard, hq] using hcs
      rw [← hc']
      simpa [wordCount_strip] using hb
  · intro st qg hst
    rw [generate_flashcards_eq, hst]
    have hbad : goodSentence "This is a short test." = false := by decide
    simp [hbad]

/-- Witness for C2: a concrete card generated from a twelve-word sentence
has its answer word count inside the bounds, and the short-test transcript
yields no cards. -/
theorem flashcard_answer_wordCount_bounds_witness :
    (10 < wordCount scCardZero.answer ∧ wordCount scCardZero.answer < 50) ∧
    generate_flashcards scTokSingle scQgAlways "This is a short test." = [] :=
  ⟨flashcard_answer_wordCount_bounds.1 scTokSingle scQgAlways
      (scSentence "zero") scCardZero (by decide),
   flashcard_answer_wordCount_bounds.2 scTokSingle scQgAlways rfl⟩

/-- C3: for every tokenizer and question-generation behaviour the cards are
the order-preserving `filterMap` over the first at-most-10 qualifying
sentences (a per-sentence failure omits exactly that sentence without
aborting the batch); in the concrete scenario of five qualifying candidates
with a failure on candidate three, the result has exactly the four other
cards, in order. -/
theorem flashcards_order_skip :
    (∀ (st : String → List String) (qg : String → Option String)
        (text : String), generate_flashcards st qg text
        = (((st text).filter goodSentence).take 10).filterMap (mkCard qg)) ∧
    (generate_flashcards scTokFive scQgFailThird "lecture").map Flashcard.answer
      = [scSentence "one", scSentence "two", scSentence "four",
         scSentence "five"] ∧
    (generate_flashcards scTokFive scQgFailThird "lecture").length = 4 :=
  ⟨generate_flashcards_eq, by decide, by decide⟩

/-- C4 counterexample: a transcription that succeeds with the empty string
(it returns a transcript rather than failing) does not trigger
summarization or flashcard generation — both fields stay unset even though
the summarizer would have returned a summary. -/
theorem pipeline_empty_success_counterexample :
    scTrEmpty (scAcquired.audio_data.getD []) = some "" ∧
    scSm "" = some "A summary." ∧
    (processStep scTrEmpty scSm scFc scAcquired).summary = none ∧
    (processStep scTrEmpty scSm scFc scAcquired).flashcards = none := by
  decide

/-- C4 (amended): whenever the transcription stage succeeds with a
non-empty transcript, the pipeline runs both summarization and flashcard
generation, unconditionally and independently: the summary field becomes
exactly the summarizer's output and the flashcards field exactly the
generator's output, each for arbitrary (including failing) behaviour of the
other collaborator. -/
theorem pipeline_runs_both_on_nonempty (tr : List Nat → Option String)
    (sm : String → Option String) (fc : String → List Flashcard)
    (s : Session) (t : String) (h1 : s.transcription = none)
    (h2 : tr (s.audio_data.getD []) = some t) (h3 : t ≠ "") :
    (processStep tr sm fc s).summary = sm t ∧
    (processStep tr sm fc s).flashcards = some (fc t) ∧
    (processStep tr sm fc s).transcription = some t := by
  simp [processStep, h1, h2, strTruthy, h3]

/-- Witness for C4 (amended) at concrete inputs. -/
theorem pipeline_runs_both_on_nonempty_witness :
    (processStep scTrHello scSm scFc scAcquired).summary = scSm "hello world" ∧
    (processStep scTrHello scSm scFc scAcquired).flashcards
      = some (scFc "hello world") ∧
    (processStep scTrHello scSm scFc scAcquired).transcription
      = some "hello world" :=
  pipeline_runs_both_on_nonempty scTrHello scSm scFc scAcquired "hello world"
    rfl rfl (by decide)

/-- C5: when the transcription collaborator fails, summary and flashcards
remain exactly as they were (unset in the acquired state), and neither
collaborator influences the resulting state at all. -/
theorem no_derived_on_transcription_failure (tr : List Nat → Option String)
    (sm : String → Option String) (fc : String → List Flashcard)
    (s : Session) (h1 : s.transcription = none)
    (h2 : tr (s.audio_data.getD []) = none) :
    (processStep tr sm fc s).summary = s.summary ∧
    (processStep tr sm fc s).flashcards = s.flashcards ∧
    (processStep tr sm fc s).transcription = none ∧
    (∀ (sm' : String → Option String) (fc' : String → List Flashcard),
      processStep tr sm fc s = processStep tr sm' fc' s) := by
  refine ⟨?_, ?_, ?_, ?_⟩ <;> simp [processStep, h1, h2, strTruthy]

/-- Witness for C5 at concrete inputs. -/
theorem no_derived_on_transcription_failure_witness :
    (processStep scTrFail scSm scFc scAcquired).summary = scAcquired.summary ∧
    (processStep scTrFail scSm scFc scAcquired).flashcards
      = scAcquired.flashcards ∧
    (processStep scTrFail scSm scFc scAcquired).transcription = none ∧
    (∀ (sm' : String → Option String) (fc' : String → List Flashcard),
      processStep scTrFail scSm scFc scAcquired
        = processStep scTrFail sm' fc' scAcquired) :=
  no_derived_on_transcription_failure scTrFail scSm scFc scAcquired rfl rfl

/-- C6: from any session-state dict, `reset_app` followed by the init loop
of the next script run yields the same state as a freshly started process,
with every one of the five keys present and set to `None`. -/
theorem reset_indistinguishable_from_fresh (r : RawState) :
    initKeys (reset_app r) = initKeys RawState.started ∧
    initKeys (reset_app r)
      = ⟨some none, some none, some none, some none, some none⟩ :=
  ⟨rfl, rfl⟩

/-- C7: once the transcript is set, every rerun of the script under any
user event other than the explicit reset leaves the transcript unchanged
(the transcription stage is never re-entered). -/
theorem transcript_stable_until_reset (tr : List Nat → Option String)
    (sm : String → Option String) (fc : String → List Flashcard)
    (ev : Event) (s : Session) (t : String)
    (h1 : s.transcription = some t) (h2 : ev ≠ Event.clickStartOver) :
    (rerun tr sm fc ev s).transcription = some t := by
  cases ev with
  | micStop b n =>
    by_cases ha : s.audio_data.isNone
    · by_cases hb : b = [] <;> simp [rerun, ha, hb, h1]
    · simp [rerun, ha, h1]
  | upload b n => by_cases ha : s.audio_data.isNone <;> simp [rerun, ha, h1]
  | refresh => by_cases ha : s.audio_data.isNone <;> simp [rerun, ha, h1]
  | clickStartOver => exact absurd rfl h2
  | clickExport => by_cases ha : s.audio_data.isNone <;> simp [rerun, ha, h1]

/-- Witness for C7 at concrete inputs. -/
theorem transcript_stable_until_reset_witness :
    (rerun scTrHello scSm scFc Event.refresh scReady).transcription
      = some "hello world" :=
  transcript_stable_until_reset scTrHello scSm scFc Event.refresh scReady
    "hello world" rfl (by decide)

/-- C8: the combined report is a pure function of the session contents and
the injected timestamp (sessions agreeing on the four rendered fields give
byte-identical reports, independently of the audio blob), it equals the
header followed by the flashcard blocks numbered starting at 1, and when
the summary is absent the placeholder literal appears in the report. -/
theorem export_report_pure_numbered (s s' : Session) (g : String)
    (h1 : s.file_name = s'.file_name) (h2 : s.transcription = s'.transcription)
    (h3 : s.summary = s'.summary) (h4 : s.flashcards = s'.flashcards) :
    full_report s g = full_report s' g ∧
    full_report s g
      = reportHeader s g ++ spec_cardsSection 0 (pyOrCards s.flashcards) ∧
    (s.summary = none → ∃ a b, full_report s g = a ++ ("No summary" ++ b)) := by
  have hclosed : ∀ u : Session, full_report u g
      = reportHeader u g ++ spec_cardsSection 0 (pyOrCards u.flashcards) :=
    fun u => report_foldl (pyOrCards u.flashcards) 0 (reportHeader u g)
  have hh : reportHeader s g = reportHeader s' g := by
    simp only [reportHeader, h1, h2, h3]
  refine ⟨?_, hclosed s, ?_⟩
  · rw [hclosed s, hclosed s', hh, h4]
  · intro hn
    refine ⟨"LECTURE ANALYSIS REPORT\nFile: " ++ pyShowOpt s.file_name ++
      "\nGenerated: " ++ g ++ "\n\n=== TRANSCRIPTION ===\n" ++
      pyShowOpt s.transcription ++ "\n\n=== SUMMARY ===\n",
      "\n\n=== FLASHCARDS ===\n" ++ spec_cardsSection 0 (pyOrCards s.flashcards),
      ?_⟩
    rw [hclosed s]
    simp only [reportHeader, hn, pyOrStr, String.append_assoc]

/-- Witness for C8 at a concrete session without a summary. -/
theorem export_report_pure_numbered_witness :
    full_report scNoSummary "2025-01-01 00:00:00"
      = full_report scNoSummary "2025-01-01 00:00:00" ∧
    full_report scNoSummary "2025-01-01 00:00:00"
      = reportHeader scNoSummary "2025-01-01 00:00:00" ++
          spec_cardsSection 0 (pyOrCards scNoSummary.flashcards) ∧
    (∃ a b, full_report scNoSummary "2025-01-01 00:00:00"
      = a ++ ("No summary" ++ b)) := by
  have h := export_report_pure_numbered scNoSummary scNoSummary
    "2025-01-01 00:00:00" rfl rfl rfl rfl
  exact ⟨h.1, h.2.1, h.2.2 rfl⟩

/-- C9: for a fresh temp path, `transcribe_with_whisper` never lets an
exception propagate to its caller; with a working `os.remove` the temp file
is gone afterwards on both the collaborator-success and the
collaborator-failure path, and a failing removal is swallowed; the return
value is the transcript on success and `None` on failure. -/
theorem temp_file_cleanup (tn : World → String)
    (mtr : String → World → Except String String) (faulty : Bool) (w : World)
    (hfresh : tn w ∉ w.files) :
    ∃ r w', transcribe_with_whisper tn mtr faulty w = .ok (r, w') ∧
      (faulty = false → w' = w ∧ tn w ∉ w'.files) ∧
      (∀ txt, mtr (tn w) ⟨tn w :: w.files⟩ = .ok txt → r = some txt) ∧
      (∀ e, mtr (tn w) ⟨tn w :: w.files⟩ = .error e → r = none) := by
  obtain ⟨files⟩ := w
  cases hm : mtr (tn ⟨files⟩) ⟨tn ⟨files⟩ :: files⟩ with
  | ok txt =>
    cases faulty with
    | false =>
      refine ⟨some txt, ⟨files⟩, ?_, fun _ => ⟨rfl, hfresh⟩, ?_, ?_⟩
      · simp [transcribe_with_whisper, hm, osRemove]
      · intro t ht
        obtain rfl : txt = t := by simpa using ht
        rfl
      · intro e he
        simp at he
    | true =>
      refine ⟨some txt, ⟨tn ⟨files⟩ :: files⟩, ?_, by simp, ?_, ?_⟩
      · simp [transcribe_with_whisper, hm, osRemove]
      · intro t ht
        obtain rfl : txt = t := by simpa using ht
        rfl
      · intro e he
        simp at he
  | error msg =>
    cases faulty with
    | false =>
      refine ⟨none, ⟨files⟩, ?_, fun _ => ⟨rfl, hfresh⟩, ?_, ?_⟩
      · simp [transcribe_with_whisper, hm, osRemove]
      · intro t ht
        simp at ht
      · intro e _
        rfl
    | true =>
      refine ⟨none, ⟨tn ⟨files⟩ :: files⟩, ?_, by simp, ?_, ?_⟩
      · simp [transcribe_with_whisper, hm, osRemove]
      · intro t ht
        simp at ht
      · intro e _
        rfl

/-- Witness for C9: a concrete run on an empty file system with a
succeeding collaborator. -/
theorem temp_file_cleanup_witness :
    ∃ r w', transcribe_with_whisper scTempName scModelTr false (World.mk [])
        = .ok (r, w') ∧
      (false = false → w' = World.mk [] ∧
        scTempName (World.mk []) ∉ w'.files) ∧
      (∀ txt, scModelTr (scTempName (World.mk []))
          ⟨scTempName (World.mk []) :: (World.mk []).files⟩ = .ok txt →
          r = some txt) ∧
      (∀ e, scModelTr (scTempName (World.mk []))
          ⟨scTempName (World.mk []) :: (World.mk []).files⟩ = .error e →
          r = none) :=
  temp_file_cleanup scTempName scModelTr false (World.mk []) (by simp)

/-- C10: a transcription that succeeds with the empty string sets the
transcript field to the empty string (the session leaves the transcribing
state) but does not invoke summarization or flashcard generation: the guard
tests truthiness, not mere non-nullness. -/
theorem empty_transcript_guard (tr : List Nat → Option String)
    (sm : String → Option String) (fc : String → List Flashcard)
    (s : Session) (h1 : s.transcription = none)
    (h2 : tr (s.audio_data.getD []) = some "") :
    (processStep tr sm fc s).transcription = some "" ∧
    (processStep tr sm fc s).summary = s.summary ∧
    (processStep tr sm fc s).flashcards = s.flashcards := by
  simp [processStep, h1, h2, strTruthy]

/-- Witness for C10 at concrete inputs. -/
theorem empty_transcript_guard_witness :
    (processStep scTrEmpty scSm scFc scAcquired).transcription = some "" ∧
    (processStep scTrEmpty scSm scFc scAcquired).summary
      = scAcquired.summary ∧
    (processStep scTrEmpty scSm scFc scAcquired).flashcards
      = scAcquired.flashcards :=
  empty_transcript_guard scTrEmpty scSm scFc scAcquired rfl rfl

end Voice2Text
